import Mathlib

/-!
Shallow embedding of `src/api.py` (SpecBuddy conversational backend).

The repository is a FastAPI service with three routes — `/chat`,
`/sales_trainer` and `/reset` — over a process-wide `sessions` dict mapping
session ids to a conversation memory (an ordered list of user/assistant
turns), an LLM client, and an Unsplash image-search helper `fetch_image`.

External collaborators (the LLM chains and the HTTP GET to Unsplash) are
modelled as oracle functions returning `Except PyError _`: a `.error`
result stands for a raised Python exception, and propagation of `.error`
through a handler models an uncaught exception escaping that handler
(the handlers in `api.py` contain no try/except; `fetch_image` wraps its
body in `try/except Exception`, which the embedding mirrors by catching
every `.error` and returning `none`).

Python strings are modelled as Lean `String`; `.strip()` as `pyStrip`
(drop whitespace at both ends), `.lower()` as `pyLower` (character-wise
lowercasing), `.strip(CHR)` of the double-quote character as `stripQuotes`.
JSON values (request/response payloads and the Unsplash response body) are
modelled by the inductive `Json`.
-/

/-- A raised Python exception, abstracted to its message. -/
structure PyError where
  msg : String
deriving DecidableEq

/-- JSON values, used for the Unsplash response body and route responses. -/
inductive Json where
  | null : Json
  | str : String → Json
  | num : Int → Json
  | bool : Bool → Json
  | arr : List Json → Json
  | obj : List (String × Json) → Json

/-- Lookup of a key in a JSON-object field list (Python dict lookup;
keys are unique in a Python dict, so first match is the match). -/
def lookupField : List (String × Json) → String → Option Json
  | [], _ => none
  | (k, v) :: rest, key => if k = key then some v else lookupField rest key

/-- Python truthiness of a JSON value (`if data.get("results"):`). -/
def Json.truthy : Json → Bool
  | Json.null => false
  | Json.str s => decide (s ≠ "")
  | Json.num n => decide (n ≠ 0)
  | Json.bool b => b
  | Json.arr xs => !xs.isEmpty
  | Json.obj fs => !fs.isEmpty

/-- Whether a JSON object response carries a given key. -/
def Json.hasKey : Json → String → Bool
  | Json.obj fs, k => (lookupField fs k).isSome
  | _, _ => false

/-- The keys of a JSON object, in order. -/
def Json.keys : Json → List String
  | Json.obj fs => fs.map Prod.fst
  | _ => []

/-- Python `data.get(key)`: `none` for a missing key, raises
(`AttributeError`) when the receiver is not a dict. -/
def pyDictGet : Json → String → Except PyError (Option Json)
  | Json.obj fs, key => Except.ok (lookupField fs key)
  | _, _ => Except.error ⟨"AttributeError"⟩

/-- Python `data[key]` on a dict: raises `KeyError` when missing,
`TypeError` when the receiver is not a dict. -/
def pyGetItem : Json → String → Except PyError Json
  | Json.obj fs, key =>
    match lookupField fs key with
    | some v => Except.ok v
    | none => Except.error ⟨"KeyError"⟩
  | _, _ => Except.error ⟨"TypeError"⟩

/-- Python `xs[i]` on a list: raises `IndexError` out of range,
`TypeError` when the receiver is not a list. -/
def pyIndex : Json → Nat → Except PyError Json
  | Json.arr xs, i =>
    match xs.get? i with
    | some v => Except.ok v
    | none => Except.error ⟨"IndexError"⟩
  | _, _ => Except.error ⟨"TypeError"⟩

/-- Python `None` serialises to JSON `null`; a value passes through. -/
def optToJson : Option Json → Json
  | none => Json.null
  | some v => v

/-- Python `s.strip()`: remove leading and trailing whitespace. -/
def pyStrip (s : String) : String :=
  String.mk (((s.data.dropWhile Char.isWhitespace).reverse.dropWhile
    Char.isWhitespace).reverse)

/-- Python `s.lower()`: lowercase every character. -/
def pyLower (s : String) : String :=
  String.mk (s.data.map Char.toLower)

/-- The double-quote character (used by `.strip(CHR)` in
`generate_image_query_with_llm`). -/
def quoteChar : Char := Char.ofNat 34

/-- Python `s.strip(CHR)` for the double-quote character: removes all
leading and trailing double quotes. -/
def stripQuotes (s : String) : String :=
  String.mk (((s.data.dropWhile (fun c => c = quoteChar)).reverse.dropWhile
    (fun c => c = quoteChar)).reverse)

/-- `SUMMARY_END_TOKEN = "<END_OF_SPECS>"` (src/api.py line 22). -/
def SUMMARY_END_TOKEN : String := "<END_OF_SPECS>"

/-- Conversation roles (`HumanMessage` / `AIMessage`). -/
inductive Role where
  | user : Role
  | assistant : Role
deriving DecidableEq

/-- One turn of a conversation memory. -/
structure Turn where
  role : Role
  content : String
deriving DecidableEq

/-- A session's conversation history, in arrival order. -/
abbrev History := List Turn

/-- A session entry: `{"memory": ConversationBufferMemory(...)}`, i.e. the
ordered message list of that memory. -/
structure Session where
  memory : History
deriving DecidableEq

/-- The process-wide `sessions` dict, as a partial map from session id. -/
abbrev Store := String → Option Session

/-- Rendering of `str(history)` — the Python `repr` of the message list,
passed verbatim to the summary prompts. The exact text is opaque to every
claim; it is a fixed injective-style rendering of the turn list. -/
def strTurn : Turn → String
  | ⟨Role.user, c⟩ => "HumanMessage(content=" ++ c ++ ")"
  | ⟨Role.assistant, c⟩ => "AIMessage(content=" ++ c ++ ")"

/-- Rendering of the whole history list for `str(history)`. -/
def strHistory (h : History) : String :=
  "[" ++ String.intercalate ", " (h.map strTurn) ++ "]"

/-- Point update of the sessions map (in Python the memory object is
mutated in place; the embedding writes the updated session back). -/
def setStore (store : Store) (session_id : String) (s : Session) : Store :=
  fun id => if id = session_id then some s else store id

/-- `get_session` (src/api.py lines 127-131): retrieve or lazily create
the session; returns the (possibly updated) store and the session. -/
def get_session (store : Store) (session_id : String) : Store × Session :=
  match store session_id with
  | some s => (store, s)
  | none => (setStore store session_id ⟨[]⟩, ⟨[]⟩)

/-- Query parameters of the Unsplash search request
(`params = \x7b"query": query, "per_page": 1\x7d`). -/
structure UnsplashParams where
  query : String
  per_page : Nat

/-- `fetch_image` (src/api.py lines 56-74). `access_key` models
`os.getenv("UNSPLASH_ACCESS_KEY")`; `httpGet` models the GET to the
Unsplash search endpoint, whose `.error` collapses connection errors,
timeouts, `raise_for_status` on non-2xx, and `r.json()` decode failures —
all raised inside the same `try`. Returns the selected URL value or `none`. -/
def fetch_image (access_key : Option String)
    (httpGet : UnsplashParams → Except PyError Json) (query : String) :
    Option Json :=
  match access_key with
  | none => none
  | some _ =>
    let attempt : Except PyError (Option Json) :=
      match httpGet ⟨query, 1⟩ with
      | Except.error e => Except.error e
      | Except.ok data =>
        match pyDictGet data "results" with
        | Except.error e => Except.error e
        | Except.ok r =>
          if (match r with | some v => v.truthy | none => false) then
            match pyGetItem data "results" with
            | Except.error e => Except.error e
            | Except.ok results =>
              match pyIndex results 0 with
              | Except.error e => Except.error e
              | Except.ok fst =>
                match pyGetItem fst "urls" with
                | Except.error e => Except.error e
                | Except.ok urls => pyGetItem urls "regular" |>.map some
          else Except.ok none
    match attempt with
    | Except.ok r => r
    | Except.error _ => none

/-- `generate_summary_with_llm` (src/api.py lines 77-110): invoke the
summary chain on `str(history)` and `.strip()` the result. -/
def generate_summary_with_llm (llm : String → Except PyError String)
    (history : History) : Except PyError String :=
  match llm (strHistory history) with
  | Except.error e => Except.error e
  | Except.ok s => Except.ok (pyStrip s)

/-- `generate_image_query_with_llm` (src/api.py lines 112-120): invoke the
query chain on the summary text and `.strip().strip(CHR)` the result,
where CHR is the double quote. -/
def generate_image_query_with_llm (llm : String → Except PyError String)
    (summary_text : String) : Except PyError String :=
  match llm summary_text with
  | Except.error e => Except.error e
  | Except.ok s => Except.ok (stripQuotes (pyStrip s))

/-- Oracles for the `/chat` handler: the summary chain, the image-query
chain, the collection-mode conversation chain, the Unsplash credential,
and the Unsplash HTTP GET. -/
structure ChatOracles where
  llmSummary : String → Except PyError String
  llmQuery : String → Except PyError String
  llmConvo : History → String → Except PyError String
  unsplashKey : Option String
  httpGet : UnsplashParams → Except PyError Json

/-- Oracles that never raise, built from total functions. -/
def pureChatOracles (fS fQ : String → String) (fC : History → String → String)
    (key : Option String) (g : UnsplashParams → Except PyError Json) :
    ChatOracles :=
  ⟨fun s => Except.ok (fS s), fun s => Except.ok (fQ s),
   fun h m => Except.ok (fC h m), key, g⟩

/-- `/chat` handler `chat_with_assistant` (src/api.py lines 134-171).
Records the user message, then: on `message.strip().lower() == "done"`
produces the summary, image query and image URL and returns the
finalization payload (without touching the memory again); otherwise runs
the collection-mode chain, appends the assistant reply to memory, and
returns `\x7b"reply": reply\x7d`. An `.error` anywhere is an exception
propagating out of the handler. -/
def chat_with_assistant (o : ChatOracles) (store : Store)
    (message session_id : String) : Except PyError (Store × Json) :=
  let p := get_session store session_id
  let mem1 : History := p.2.memory ++ [⟨Role.user, message⟩]
  let store2 := setStore p.1 session_id ⟨mem1⟩
  if pyLower (pyStrip message) = "done" then
    match generate_summary_with_llm o.llmSummary mem1 with
    | Except.error e => Except.error e
    | Except.ok summary =>
      match generate_image_query_with_llm o.llmQuery summary with
      | Except.error e => Except.error e
      | Except.ok image_query =>
        let image_url := fetch_image o.unsplashKey o.httpGet image_query
        Except.ok (store2,
          Json.obj [("reply", Json.str summary),
                    ("image_query", Json.str image_query),
                    ("image_url", optToJson image_url)])
  else
    match o.llmConvo mem1 message with
    | Except.error e => Except.error e
    | Except.ok reply =>
      Except.ok (setStore store2 session_id ⟨mem1 ++ [⟨Role.assistant, reply⟩]⟩,
        Json.obj [("reply", Json.str reply)])

/-- Oracles for the `/sales_trainer` handler: the trainer summary chain
(given `str(history)`) and the trainer conversation chain. -/
structure TrainerOracles where
  llmTrainerSummary : String → Except PyError String
  llmTrainerConvo : History → String → Except PyError String

/-- Trainer oracles that never raise, built from total functions. -/
def pureTrainerOracles (fT : String → String) (fTC : History → String → String) :
    TrainerOracles :=
  ⟨fun s => Except.ok (fT s), fun h m => Except.ok (fTC h m)⟩

/-- `/sales_trainer` handler (src/api.py lines 173-242). Same store and
`get_session` as `/chat`; on `"done"` returns the stripped trainer summary
without appending it to memory; otherwise appends the assistant reply. -/
def sales_trainer (o : TrainerOracles) (store : Store)
    (message session_id : String) : Except PyError (Store × Json) :=
  let p := get_session store session_id
  let mem1 : History := p.2.memory ++ [⟨Role.user, message⟩]
  let store2 := setStore p.1 session_id ⟨mem1⟩
  if pyLower (pyStrip message) = "done" then
    match o.llmTrainerSummary (strHistory mem1) with
    | Except.error e => Except.error e
    | Except.ok reply =>
      Except.ok (store2, Json.obj [("reply", Json.str (pyStrip reply))])
  else
    match o.llmTrainerConvo mem1 message with
    | Except.error e => Except.error e
    | Except.ok reply =>
      Except.ok (setStore store2 session_id ⟨mem1 ++ [⟨Role.assistant, reply⟩]⟩,
        Json.obj [("reply", Json.str reply)])

/-- `/reset` handler `reset_conversation` (src/api.py lines 245-250):
delete the session entry when present, no-op when absent, and return the
status payload. -/
def reset_conversation (store : Store) (session_id : String) : Store × Json :=
  let store' : Store :=
    match store session_id with
    | some _ => fun id => if id = session_id then none else store id
    | none => store
  (store', Json.obj [("status",
    Json.str ("Conversation reset for " ++ session_id))])

/-- The history currently recorded for a session id (empty when absent);
vocabulary for the theorems below. -/
def oldMem (store : Store) (session_id : String) : History :=
  match store session_id with
  | some s => s.memory
  | none => []

/-- Index of the first occurrence of `pat` in a character list, if any. -/
def subFind : List Char → List Char → Option Nat
  | [], pat => if pat.isEmpty then some 0 else none
  | c :: rest, pat =>
    if pat = (c :: rest).take pat.length then some 0
    else (subFind rest pat).map (fun n => n + 1)

/-- The structured Requirement Summary record (spec, section 3): all
fields optional, plus an open-ended extra-spec mapping. -/
structure RequirementSummary where
  product : Option String
  budget : Option String
  preferred_brands : List String
  color : Option String
  size : Option String
  delivery_mode : Option String
  extra_specs : List (String × String)
deriving DecidableEq

/-- Result of the Summary Extractor: a structured record plus optional
follow-up line, or the raw-text fallback with a parse-failure indicator. -/
inductive ExtractResult where
  | ok : RequirementSummary → Option String → ExtractResult
  | fallback : String → String → ExtractResult
deriving DecidableEq

/-- The opening-brace character, the payload start marker. -/
def braceChar : Char := Char.ofNat 123

/-- Placeholder tokens a follow-up line is compared against
(case-insensitively) before being shown. -/
def placeholderTokens : List String := ["undefined", "null", "none"]

/-- Modelled from the spec: the Summary Extractor of section 4.3 is not
present under `src/` — only its end-sentinel constant `SUMMARY_END_TOKEN`
is declared in `src/api.py` (line 22) and never used there. Following the
spec's words: the payload is the substring from the first opening-brace
start marker up to (not including) the end sentinel; it is parsed by a
strict parse function (`parse`, producing a typed optional record, spec
section 9); the text after the sentinel, stripped, is the follow-up,
discarded when empty or case-insensitively equal to a known placeholder
token; on sentinel missing, boundary not found, or malformed payload the
extractor does not raise but returns the raw text verbatim together with a
parse-failure indicator. -/
def extract_summary (parse : String → Option RequirementSummary)
    (raw : String) : ExtractResult :=
  match subFind raw.data SUMMARY_END_TOKEN.data with
  | none => ExtractResult.fallback raw
      "summary parse failure: end sentinel not found"
  | some endPos =>
    match subFind raw.data [braceChar] with
    | none => ExtractResult.fallback raw
        "summary parse failure: payload boundary not found"
    | some start =>
      if start < endPos then
        let payload := String.mk ((raw.data.drop start).take (endPos - start))
        match parse payload with
        | none => ExtractResult.fallback raw
            "summary parse failure: malformed payload"
        | some s =>
          let followRaw :=
            pyStrip (String.mk (raw.data.drop (endPos + SUMMARY_END_TOKEN.data.length)))
          let follow :=
            if followRaw = "" ∨ placeholderTokens.contains (pyLower followRaw)
            then none else some followRaw
          ExtractResult.ok s follow
      else ExtractResult.fallback raw
        "summary parse failure: payload boundary not found"

/-- The summary text produced on a finalization turn with history `h`
under a pure summary oracle `fS`. -/
def doneSummary (fS : String → String) (h : History) : String :=
  pyStrip (fS (strHistory h))

/-- The image query produced on a finalization turn with history `h`
under pure oracles. -/
def doneQuery (fS fQ : String → String) (h : History) : String :=
  stripQuotes (pyStrip (fQ (doneSummary fS h)))

/-- The finalization response payload of `/chat` under pure oracles. -/
def chatDoneJson (fS fQ : String → String) (key : Option String)
    (g : UnsplashParams → Except PyError Json) (h : History) : Json :=
  Json.obj [("reply", Json.str (doneSummary fS h)),
            ("image_query", Json.str (doneQuery fS fQ h)),
            ("image_url", optToJson (fetch_image key g (doneQuery fS fQ h)))]

/-! ### Evaluation lemmas

Closed forms of the handlers under non-raising oracles, used by the claim
theorems below. -/

theorem setStore_twice (store : Store) (sid : String) (s1 s2 : Session) :
    setStore (setStore store sid s1) sid s2 = setStore store sid s2 := by
  funext id
  unfold setStore
  by_cases hid : id = sid <;> simp [hid]

theorem setStore_same (store : Store) (sid : String) (s : Session) :
    setStore store sid s sid = some s := by
  simp [setStore]

theorem setStore_other (store : Store) (sid id : String) (s : Session)
    (h : id ≠ sid) : setStore store sid s id = store id := by
  simp [setStore, h]

theorem chat_done_eval (fS fQ : String → String) (fC : History → String → String)
    (key : Option String) (g : UnsplashParams → Except PyError Json)
    (store : Store) (m sid : String) (h : pyLower (pyStrip m) = "done") :
    chat_with_assistant (pureChatOracles fS fQ fC key g) store m sid =
      Except.ok (setStore store sid ⟨oldMem store sid ++ [⟨Role.user, m⟩]⟩,
        chatDoneJson fS fQ key g (oldMem store sid ++ [⟨Role.user, m⟩])) := by
  unfold chat_with_assistant get_session oldMem
  cases hs : store sid with
  | none =>
    simp only [h, if_true, pureChatOracles, generate_summary_with_llm,
      generate_image_query_with_llm, chatDoneJson, doneQuery, doneSummary,
      setStore_twice, List.nil_append, if_pos]
  | some s =>
    simp only [h, if_true, pureChatOracles, generate_summary_with_llm,
      generate_image_query_with_llm, chatDoneJson, doneQuery, doneSummary,
      if_pos]

theorem chat_convo_eval (fS fQ : String → String) (fC : History → String → String)
    (key : Option String) (g : UnsplashParams → Except PyError Json)
    (store : Store) (m sid : String) (h : ¬ pyLower (pyStrip m) = "done") :
    chat_with_assistant (pureChatOracles fS fQ fC key g) store m sid =
      Except.ok
        (setStore store sid
          ⟨oldMem store sid ++ [⟨Role.user, m⟩,
            ⟨Role.assistant, fC (oldMem store sid ++ [⟨Role.user, m⟩]) m⟩]⟩,
         Json.obj [("reply",
           Json.str (fC (oldMem store sid ++ [⟨Role.user, m⟩]) m))]) := by
  unfold chat_with_assistant get_session oldMem
  cases hs : store sid with
  | none =>
    simp only [h, if_false, pureChatOracles, setStore_twice, List.nil_append,
      List.append_assoc, List.cons_append, List.singleton_append]
  | some s =>
    simp only [h, if_false, pureChatOracles, setStore_twice, List.append_assoc,
      List.cons_append, List.singleton_append, List.nil_append]

theorem trainer_done_eval (fT : String → String) (fTC : History → String → String)
    (store : Store) (m sid : String) (h : pyLower (pyStrip m) = "done") :
    sales_trainer (pureTrainerOracles fT fTC) store m sid =
      Except.ok (setStore store sid ⟨oldMem store sid ++ [⟨Role.user, m⟩]⟩,
        Json.obj [("reply",
          Json.str (pyStrip (fT (strHistory (oldMem store sid ++ [⟨Role.user, m⟩])))))]) := by
  unfold sales_trainer get_session oldMem
  cases hs : store sid with
  | none =>
    simp only [h, if_true, pureTrainerOracles, setStore_twice, List.nil_append,
      if_pos]
  | some s =>
    simp only [h, if_true, pureTrainerOracles, if_pos]

theorem trainer_convo_eval (fT : String → String) (fTC : History → String → String)
    (store : Store) (m sid : String) (h : ¬ pyLower (pyStrip m) = "done") :
    sales_trainer (pureTrainerOracles fT fTC) store m sid =
      Except.ok
        (setStore store sid
          ⟨oldMem store sid ++ [⟨Role.user, m⟩,
            ⟨Role.assistant, fTC (oldMem store sid ++ [⟨Role.user, m⟩]) m⟩]⟩,
         Json.obj [("reply",
           Json.str (fTC (oldMem store sid ++ [⟨Role.user, m⟩]) m))]) := by
  unfold sales_trainer get_session oldMem
  cases hs : store sid with
  | none =>
    simp only [h, if_false, pureTrainerOracles, setStore_twice, List.nil_append,
      List.append_assoc, List.cons_append, List.singleton_append]
  | some s =>
    simp only [h, if_false, pureTrainerOracles, setStore_twice, List.append_assoc,
      List.cons_append, List.singleton_append, List.nil_append]

/-! ### Claim theorems -/

/-- Claim C1: on the `/chat` endpoint, finalization mode is triggered iff
the inbound message, stripped of surrounding whitespace and lowercased,
equals `"done"` (the finalization branch is the one whose response carries
the `image_query` field); in particular `"  DONE  "` finalizes while a
message that merely contains "done" as a substring does not. -/
theorem claim1_chat_finalization_exact_match
    (fS fQ : String → String) (fC : History → String → String)
    (key : Option String) (g : UnsplashParams → Except PyError Json)
    (store : Store) (m sid : String) :
    (∃ st r, chat_with_assistant (pureChatOracles fS fQ fC key g) store m sid
        = Except.ok (st, r)
      ∧ (r.hasKey "image_query" = true ↔ pyLower (pyStrip m) = "done"))
    ∧ pyLower (pyStrip "  DONE  ") = "done"
    ∧ pyLower (pyStrip "I am done thinking, what about blue?") ≠ "done" := by
  refine ⟨?_, by decide, by decide⟩
  by_cases h : pyLower (pyStrip m) = "done"
  · refine ⟨_, _, chat_done_eval fS fQ fC key g store m sid h, ?_⟩
    have hk : Json.hasKey
        (chatDoneJson fS fQ key g (oldMem store sid ++ [⟨Role.user, m⟩]))
        "image_query" = true := rfl
    rw [hk]
    simp [h]
  · refine ⟨_, _, chat_convo_eval fS fQ fC key g store m sid h, ?_⟩
    have hk : Json.hasKey
        (Json.obj [("reply",
          Json.str (fC (oldMem store sid ++ [⟨Role.user, m⟩]) m))])
        "image_query" = false := rfl
    rw [hk]
    simp [h]

/-- Claim C4: for every finalization-turn LLM text in which the end
sentinel `SUMMARY_END_TOKEN` does not occur, the Summary Extractor does
not raise (it is a total function) and falls back to returning the full
raw text verbatim together with an explicit parse-failure indicator. -/
theorem claim4_extractor_sentinel_missing
    (parse : String → Option RequirementSummary) (raw : String)
    (h : subFind raw.data SUMMARY_END_TOKEN.data = none) :
    extract_summary parse raw = ExtractResult.fallback raw
      "summary parse failure: end sentinel not found" := by
  unfold extract_summary
  rw [h]

theorem claim4_witness :
    subFind ("Here is your summary.").data SUMMARY_END_TOKEN.data = none
    ∧ extract_summary (fun _ => none) "Here is your summary."
        = ExtractResult.fallback "Here is your summary."
            "summary parse failure: end sentinel not found" := by
  refine ⟨by decide, ?_⟩
  exact claim4_extractor_sentinel_missing (fun _ => none) "Here is your summary."
    (by decide)

/-- Claim C6: the image resolver `fetch_image` returns `none` when the
credential is missing, when the transport raises, when the results list is
absent or empty, and when the payload is malformed — never raising — and
when a first result exists it selects that result's `urls.regular` URL
field; the search request is issued with the fixed page size 1, so the
outcome depends only on the oracle's answer to the page-size-1 request. -/
theorem claim6_image_resolver :
    (∀ g q, fetch_image none g q = none)
    ∧ (∀ k q e, fetch_image (some k) (fun _ => Except.error e) q = none)
    ∧ (∀ k q, fetch_image (some k) (fun _ => Except.ok (Json.obj [])) q = none)
    ∧ (∀ k q, fetch_image (some k)
        (fun _ => Except.ok (Json.obj [("results", Json.arr [])])) q = none)
    ∧ (∀ k q, fetch_image (some k) (fun _ => Except.ok Json.null) q = none)
    ∧ (∀ k q, fetch_image (some k)
        (fun _ => Except.ok (Json.obj [("results", Json.arr [Json.obj []])])) q
        = none)
    ∧ (∀ k q (u : Json) (restFields : List (String × Json)) (rest : List Json)
        (extra : List (String × Json)),
        fetch_image (some k)
          (fun _ => Except.ok (Json.obj
            (("results", Json.arr
              (Json.obj [("urls", Json.obj (("regular", u) :: restFields))]
                :: rest)) :: extra))) q = some u)
    ∧ (∀ k q g g', g ⟨q, 1⟩ = g' ⟨q, 1⟩ →
        fetch_image (some k) g q = fetch_image (some k) g' q) := by
  refine ⟨fun g q => rfl, fun k q e => rfl, fun k q => rfl, fun k q => rfl,
    fun k q => rfl, fun k q => rfl, fun k q u restFields rest extra => rfl,
    fun k q g g' hgg => ?_⟩
  unfold fetch_image
  rw [hgg]

theorem claim6_witness :
    fetch_image none (fun _ => Except.error ⟨"e"⟩) "q" = none
    ∧ fetch_image (some "k")
        (fun _ => Except.ok (Json.obj [("results", Json.arr
          [Json.obj [("urls", Json.obj [("regular", Json.str "u")])]])])) "q"
        = some (Json.str "u")
    ∧ fetch_image (some "k")
        (fun p => if p.per_page = 1 then Except.ok Json.null
          else Except.error ⟨"x"⟩) "q"
        = fetch_image (some "k") (fun _ => Except.ok Json.null) "q" := by
  refine ⟨claim6_image_resolver.1 _ "q", ?_, ?_⟩
  · exact claim6_image_resolver.2.2.2.2.2.2.1 "k" "q" (Json.str "u") [] [] []
  · exact claim6_image_resolver.2.2.2.2.2.2.2 "k" "q" _ _ rfl

/-- Claim C7: `/reset` removes the session entry when present — so a
subsequent message for that id starts from empty history — leaves every
other entry untouched, is an error-free no-op when the session is absent,
always returns the status payload, and is idempotent: resetting twice
equals resetting once. -/
theorem claim7_reset_idempotent :
    (∀ store sid, (reset_conversation store sid).1 sid = none)
    ∧ (∀ store sid id, id ≠ sid →
        (reset_conversation store sid).1 id = store id)
    ∧ (∀ store sid, store sid = none → (reset_conversation store sid).1 = store)
    ∧ (∀ store sid,
        reset_conversation ((reset_conversation store sid).1) sid
          = reset_conversation store sid)
    ∧ (∀ store sid,
        (get_session ((reset_conversation store sid).1) sid).2.memory = [])
    ∧ (∀ store sid, (reset_conversation store sid).2
        = Json.obj [("status",
            Json.str ("Conversation reset for " ++ sid))]) := by
  have hdel : ∀ (store : Store) sid, (reset_conversation store sid).1 sid = none := by
    intro store sid
    unfold reset_conversation
    cases hs : store sid <;> simp [hs]
  refine ⟨hdel, ?_, ?_, ?_, ?_, ?_⟩
  · intro store sid id hid
    unfold reset_conversation
    cases hs : store sid <;> simp [hid]
  · intro store sid hs
    unfold reset_conversation
    rw [hs]
  · intro store sid
    unfold reset_conversation
    cases hs : store sid <;> simp [hs]
  · intro store sid
    unfold get_session
    rw [hdel store sid]
  · intro store sid
    unfold reset_conversation
    cases hs : store sid <;> simp [hs]

theorem claim7_witness :
    (reset_conversation
        (fun id => if id = "s" then some ⟨[⟨Role.user, "hi"⟩]⟩ else none) "s").1 "t"
      = none
    ∧ (reset_conversation (fun _ => none) "s").1 = (fun _ => none) := by
  constructor
  · exact (claim7_reset_idempotent.2.1
      (fun id => if id = "s" then some ⟨[⟨Role.user, "hi"⟩]⟩ else none)
      "s" "t" (by decide)).trans (by decide)
  · exact claim7_reset_idempotent.2.2.1 (fun _ => none) "s" rfl

/-- Claim C2 as stated is false: on the finalization turn the `/chat`
handler appends only the user turn — the summary is never written back to
history as an assistant turn. Concretely, from an empty store, sending
`"done"` yields the finalization response (the `image_query` key is
present) while the recorded history is exactly the single user turn, which
contains zero assistant turns. -/
theorem claim2_counterexample :
    (chat_with_assistant
        (pureChatOracles (fun _ => "S") (fun _ => "Q") (fun _ _ => "R") none
          (fun _ => Except.error ⟨"e"⟩))
        (fun _ => none) "done" "sess").map
      (fun p => ((p.1 "sess").map Session.memory, p.2.hasKey "image_query"))
      = Except.ok (some [⟨Role.user, "done"⟩], true)
    ∧ List.countP (fun t => decide (t.role = Role.assistant))
        [(⟨Role.user, "done"⟩ : Turn)] = 0 :=
  ⟨rfl, rfl⟩

/-- Claim C2 amended: prior turns are always preserved in order and no
other session is touched; a successful collection call appends exactly one
user turn and one assistant turn, while a finalization call appends
exactly the one user turn and no assistant turn. -/
theorem claim2_amended_history_append
    (fS fQ : String → String) (fC : History → String → String)
    (key : Option String) (g : UnsplashParams → Except PyError Json)
    (store : Store) (m sid : String) :
    ∃ st r, chat_with_assistant (pureChatOracles fS fQ fC key g) store m sid
        = Except.ok (st, r)
      ∧ (st sid).map Session.memory = some (oldMem store sid ++
          (if pyLower (pyStrip m) = "done" then [⟨Role.user, m⟩]
           else [⟨Role.user, m⟩,
             ⟨Role.assistant, fC (oldMem store sid ++ [⟨Role.user, m⟩]) m⟩]))
      ∧ ∀ id, id ≠ sid → st id = store id := by
  by_cases h : pyLower (pyStrip m) = "done"
  · refine ⟨_, _, chat_done_eval fS fQ fC key g store m sid h, ?_, ?_⟩
    · rw [if_pos h, setStore_same]
      rfl
    · intro id hid
      exact setStore_other store sid id _ hid
  · refine ⟨_, _, chat_convo_eval fS fQ fC key g store m sid h, ?_, ?_⟩
    · rw [if_neg h, setStore_same]
      rfl
    · intro id hid
      exact setStore_other store sid id _ hid

theorem claim2_amended_witness :
    ∃ st r, chat_with_assistant
        (pureChatOracles (fun _ => "S") (fun _ => "Q") (fun _ _ => "R") none
          (fun _ => Except.error ⟨"e"⟩))
        (fun _ => none) "done" "sess" = Except.ok (st, r)
      ∧ (st "sess").map Session.memory = some [⟨Role.user, "done"⟩]
      ∧ st "other" = none := by
  obtain ⟨st, r, h1, h2, h3⟩ :=
    claim2_amended_history_append (fun _ => "S") (fun _ => "Q") (fun _ _ => "R")
      none (fun _ => Except.error ⟨"e"⟩) (fun _ => none) "done" "sess"
  rw [if_pos (show pyLower (pyStrip "done") = "done" from by decide)] at h2
  refine ⟨st, r, h1, ?_, ?_⟩
  · simpa [oldMem] using h2
  · simpa using h3 "other" (by decide)

/-- Claim C3 as stated is false: the finalization response of `/chat` has
keys `reply`, `image_query`, `image_url` — there is no structured
`summary` field and no `conversation_ended` field. -/
theorem claim3_counterexample :
    (chat_with_assistant
        (pureChatOracles (fun _ => "S") (fun _ => "Q") (fun _ _ => "R") none
          (fun _ => Except.error ⟨"e"⟩))
        (fun _ => none) "done" "sess").map
      (fun p => (p.2.keys, p.2.hasKey "summary",
        p.2.hasKey "conversation_ended"))
      = Except.ok (["reply", "image_query", "image_url"], false, false) :=
  rfl

/-- Claim C3 amended: on a finalization turn the success response carries
exactly the fields `reply`, `image_query` and `image_url` (the image URL
may be JSON null) and neither a `summary` nor a `conversation_ended`
field; during collection the response carries exactly `reply`. -/
theorem claim3_amended_response_fields
    (fS fQ : String → String) (fC : History → String → String)
    (key : Option String) (g : UnsplashParams → Except PyError Json)
    (store : Store) (m sid : String) :
    ∃ st r, chat_with_assistant (pureChatOracles fS fQ fC key g) store m sid
        = Except.ok (st, r)
      ∧ r.keys = (if pyLower (pyStrip m) = "done"
          then ["reply", "image_query", "image_url"] else ["reply"])
      ∧ r.hasKey "summary" = false
      ∧ r.hasKey "conversation_ended" = false := by
  by_cases h : pyLower (pyStrip m) = "done"
  · exact ⟨_, _, chat_done_eval fS fQ fC key g store m sid h,
      by rw [if_pos h]; rfl, rfl, rfl⟩
  · exact ⟨_, _, chat_convo_eval fS fQ fC key g store m sid h,
      by rw [if_neg h]; rfl, rfl, rfl⟩

/-- Claim C5 as stated is false for the LLM boundary: an LLM-client error
raised on a finalization turn propagates uncaught out of the `/chat`
handler — the caller receives the raised exception, not a reply string. -/
theorem claim5_counterexample :
    chat_with_assistant
      ⟨fun _ => Except.error ⟨"LLM timeout"⟩, fun s => Except.ok s,
       fun _ _ => Except.ok "R", none, fun _ => Except.error ⟨"e"⟩⟩
      (fun _ => none) "done" "sess" = Except.error ⟨"LLM timeout"⟩ :=
  rfl

/-- Claim C5 amended: the image-search boundary never lets a failure
escape — `fetch_image` catches every raised transport error and returns
`none` — but LLM-client failures are not caught by the `/chat` handler: an
LLM error raised on the finalization branch or on the collection branch
propagates out of the handler unchanged. -/
theorem claim5_amended_error_boundaries (e : PyError) :
    (∀ key q e2, fetch_image key (fun _ => Except.error e2) q = none)
    ∧ (∀ (o : ChatOracles) (store : Store) (m sid : String),
        pyLower (pyStrip m) = "done" →
        o.llmSummary (strHistory (oldMem store sid ++ [⟨Role.user, m⟩]))
          = Except.error e →
        chat_with_assistant o store m sid = Except.error e)
    ∧ (∀ (o : ChatOracles) (store : Store) (m sid : String),
        ¬ pyLower (pyStrip m) = "done" →
        o.llmConvo (oldMem store sid ++ [⟨Role.user, m⟩]) m = Except.error e →
        chat_with_assistant o store m sid = Except.error e) := by
  refine ⟨?_, ?_, ?_⟩
  · intro key q e2
    cases key <;> rfl
  · intro o store m sid hdone hsum
    unfold oldMem at hsum
    unfold chat_with_assistant get_session generate_summary_with_llm
    cases hs : store sid with
    | none =>
      rw [hs] at hsum
      simp only [hs, hdone, if_true, List.nil_append] at hsum ⊢
      rw [hsum]
    | some s =>
      rw [hs] at hsum
      simp only [hs, hdone, if_true] at hsum ⊢
      rw [hsum]
  · intro o store m sid hdone hconvo
    unfold oldMem at hconvo
    unfold chat_with_assistant get_session
    cases hs : store sid with
    | none =>
      rw [hs] at hconvo
      simp only [hs, hdone, if_false, List.nil_append] at hconvo ⊢
      rw [hconvo]
    | some s =>
      rw [hs] at hconvo
      simp only [hs, hdone, if_false] at hconvo ⊢
      rw [hconvo]

theorem claim5_amended_witness :
    fetch_image (some "k") (fun _ => Except.error ⟨"boom"⟩) "q" = none
    ∧ chat_with_assistant
        ⟨fun _ => Except.error ⟨"x"⟩, fun s => Except.ok s,
         fun _ _ => Except.ok "R", none, fun _ => Except.ok Json.null⟩
        (fun _ => none) "done" "sess" = Except.error ⟨"x"⟩
    ∧ chat_with_assistant
        ⟨fun s => Except.ok s, fun s => Except.ok s,
         fun _ _ => Except.error ⟨"y"⟩, none, fun _ => Except.ok Json.null⟩
        (fun _ => none) "hello" "sess" = Except.error ⟨"y"⟩ := by
  refine ⟨(claim5_amended_error_boundaries ⟨"boom"⟩).1 (some "k") "q" ⟨"boom"⟩,
    ?_, ?_⟩
  · exact (claim5_amended_error_boundaries ⟨"x"⟩).2.1 _ (fun _ => none) "done"
      "sess" (by decide) rfl
  · exact (claim5_amended_error_boundaries ⟨"y"⟩).2.2 _ (fun _ => none) "hello"
      "sess" (by decide) rfl

/-- Claim C8 as stated is false: no product/color fields are extracted and
the image query is not their space-separated concatenation — it is the
output of a second LLM call on the summary text. Concretely, with a
summary naming product "laptop" and color "silver" but a query chain
answering "mountain landscape", the query passed to the image-search
client (echoed back here as the selected URL by the search oracle) is
"mountain landscape", not "laptop silver". -/
theorem claim8_counterexample :
    (chat_with_assistant
        (pureChatOracles (fun _ => "product: laptop; color: silver")
          (fun _ => "mountain landscape") (fun _ _ => "R") (some "k")
          (fun p => Except.ok (Json.obj [("results", Json.arr
            [Json.obj [("urls", Json.obj [("regular", Json.str p.query)])]])])))
        (fun _ => none) "done" "sess").map (fun p => p.2)
      = Except.ok (Json.obj
          [("reply", Json.str "product: laptop; color: silver"),
           ("image_query", Json.str "mountain landscape"),
           ("image_url", Json.str "mountain landscape")])
    ∧ "mountain landscape" ≠ "laptop silver" :=
  ⟨rfl, by decide⟩

/-- Claim C8 amended: on a finalization turn the query passed to the
image-search client is produced by `generate_image_query_with_llm` — a
second LLM call given the summary text, whose answer is stripped of
surrounding whitespace and double quotes — and the response's image URL is
resolved by `fetch_image` from exactly that query. -/
theorem claim8_amended_query_from_llm
    (fS fQ : String → String) (fC : History → String → String)
    (key : Option String) (g : UnsplashParams → Except PyError Json)
    (store : Store) (m sid : String) (h : pyLower (pyStrip m) = "done") :
    ∃ st, chat_with_assistant (pureChatOracles fS fQ fC key g) store m sid
        = Except.ok (st, Json.obj
            [("reply", Json.str
              (doneSummary fS (oldMem store sid ++ [⟨Role.user, m⟩]))),
             ("image_query", Json.str
              (doneQuery fS fQ (oldMem store sid ++ [⟨Role.user, m⟩]))),
             ("image_url", optToJson (fetch_image key g
              (doneQuery fS fQ (oldMem store sid ++ [⟨Role.user, m⟩]))))])
      ∧ generate_image_query_with_llm (fun s => Except.ok (fQ s))
          (doneSummary fS (oldMem store sid ++ [⟨Role.user, m⟩]))
          = Except.ok (doneQuery fS fQ (oldMem store sid ++ [⟨Role.user, m⟩])) :=
  ⟨_, chat_done_eval fS fQ fC key g store m sid h, rfl⟩

theorem claim8_amended_witness :
    ∃ st, chat_with_assistant
        (pureChatOracles (fun _ => "S") (fun _ => " q ") (fun _ _ => "R") none
          (fun _ => Except.error ⟨"e"⟩))
        (fun _ => none) "done" "sess"
      = Except.ok (st, Json.obj
          [("reply", Json.str "S"), ("image_query", Json.str "q"),
           ("image_url", Json.null)]) := by
  obtain ⟨st, h1, h2⟩ :=
    claim8_amended_query_from_llm (fun _ => "S") (fun _ => " q ")
      (fun _ _ => "R") none (fun _ => Except.error ⟨"e"⟩) (fun _ => none)
      "done" "sess" (by decide)
  exact ⟨st, h1⟩

/-- Claim C9: `/chat` and `/sales_trainer` share the one process-wide
session store keyed by session id: after a `/chat` turn, a
`/sales_trainer` call for the same id replays a history containing that
turn — its conversation chain receives the `/chat`-recorded turns — and
the final recorded history interleaves both endpoints' turns in order. -/
theorem claim9_shared_store
    (fS fQ : String → String) (fC : History → String → String)
    (key : Option String) (g : UnsplashParams → Except PyError Json)
    (fT : String → String) (fTC : History → String → String)
    (sid m1 m2 : String)
    (h1 : ¬ pyLower (pyStrip m1) = "done")
    (h2 : ¬ pyLower (pyStrip m2) = "done") :
    ∃ st1 r1 st2 r2,
      chat_with_assistant (pureChatOracles fS fQ fC key g) (fun _ => none)
          m1 sid = Except.ok (st1, r1)
      ∧ sales_trainer (pureTrainerOracles fT fTC) st1 m2 sid
          = Except.ok (st2, r2)
      ∧ (st2 sid).map Session.memory = some
          [⟨Role.user, m1⟩, ⟨Role.assistant, fC [⟨Role.user, m1⟩] m1⟩,
           ⟨Role.user, m2⟩,
           ⟨Role.assistant, fTC [⟨Role.user, m1⟩,
             ⟨Role.assistant, fC [⟨Role.user, m1⟩] m1⟩, ⟨Role.user, m2⟩] m2⟩] := by
  refine ⟨_, _, _, _,
    chat_convo_eval fS fQ fC key g (fun _ => none) m1 sid h1,
    trainer_convo_eval fT fTC _ m2 sid h2, ?_⟩
  rw [setStore_same]
  simp [oldMem, setStore]

theorem claim9_witness :
    ∃ st1 r1 st2 r2,
      chat_with_assistant
          (pureChatOracles (fun _ => "S") (fun _ => "Q") (fun _ _ => "A") none
            (fun _ => Except.error ⟨"e"⟩))
          (fun _ => none) "hi" "s" = Except.ok (st1, r1)
      ∧ sales_trainer (pureTrainerOracles (fun _ => "T") (fun _ _ => "B"))
          st1 "yo" "s" = Except.ok (st2, r2)
      ∧ (st2 "s").map Session.memory = some
          [⟨Role.user, "hi"⟩, ⟨Role.assistant, "A"⟩,
           ⟨Role.user, "yo"⟩, ⟨Role.assistant, "B"⟩] :=
  claim9_shared_store (fun _ => "S") (fun _ => "Q") (fun _ _ => "A") none
    (fun _ => Except.error ⟨"e"⟩) (fun _ => "T") (fun _ _ => "B") "s" "hi" "yo"
    (by decide) (by decide)

/-- Claim C10: on the finalization branch of either endpoint the only
session-state change is appending the user's "done" turn — the entry is
neither deleted nor marked finalized and no other session is touched; a
subsequent non-"done" message for the same id is handled in collection
mode over the full prior history including that "done" turn, and sending
"done" again produces a fresh finalization. -/
theorem claim10_finalization_frame
    (fS fQ : String → String) (fC : History → String → String)
    (key : Option String) (g : UnsplashParams → Except PyError Json)
    (fT : String → String) (fTC : History → String → String)
    (store : Store) (sid d m : String)
    (hd : pyLower (pyStrip d) = "done")
    (hm : ¬ pyLower (pyStrip m) = "done") :
    ∃ st1 r1,
      chat_with_assistant (pureChatOracles fS fQ fC key g) store d sid
        = Except.ok (st1, r1)
      ∧ (st1 sid).map Session.memory
          = some (oldMem store sid ++ [⟨Role.user, d⟩])
      ∧ (∀ id, id ≠ sid → st1 id = store id)
      ∧ (∃ st2 r2, chat_with_assistant (pureChatOracles fS fQ fC key g) st1 m
            sid = Except.ok (st2, r2)
          ∧ r2.hasKey "image_query" = false
          ∧ (st2 sid).map Session.memory = some
              (oldMem store sid ++ [⟨Role.user, d⟩, ⟨Role.user, m⟩,
                ⟨Role.assistant,
                  fC (oldMem store sid ++ [⟨Role.user, d⟩, ⟨Role.user, m⟩]) m⟩]))
      ∧ (∃ st3 r3, chat_with_assistant (pureChatOracles fS fQ fC key g) st1 d
            sid = Except.ok (st3, r3)
          ∧ r3.hasKey "image_query" = true)
      ∧ (∃ st4 r4, sales_trainer (pureTrainerOracles fT fTC) store d sid
            = Except.ok (st4, r4)
          ∧ (st4 sid).map Session.memory
              = some (oldMem store sid ++ [⟨Role.user, d⟩])
          ∧ (∀ id, id ≠ sid → st4 id = store id)) := by
  refine ⟨_, _, chat_done_eval fS fQ fC key g store d sid hd, ?_, ?_, ?_, ?_, ?_⟩
  · rw [setStore_same]
    rfl
  · intro id hid
    exact setStore_other store sid id _ hid
  · refine ⟨_, _, chat_convo_eval fS fQ fC key g _ m sid hm, rfl, ?_⟩
    rw [setStore_twice, setStore_same]
    simp [oldMem, setStore]
  · exact ⟨_, _, chat_done_eval fS fQ fC key g _ d sid hd, rfl⟩
  · refine ⟨_, _, trainer_done_eval fT fTC store d sid hd, ?_, ?_⟩
    · rw [setStore_same]
      rfl
    · intro id hid
      exact setStore_other store sid id _ hid

theorem claim10_witness :
    ∃ st1 r1,
      chat_with_assistant
          (pureChatOracles (fun _ => "S") (fun _ => "Q") (fun _ _ => "A") none
            (fun _ => Except.error ⟨"e"⟩))
          (fun _ => none) "done" "s" = Except.ok (st1, r1)
      ∧ (st1 "s").map Session.memory = some [⟨Role.user, "done"⟩]
      ∧ st1 "other" = none := by
  obtain ⟨st1, r1, ha, hb, hc, _, _, _⟩ :=
    claim10_finalization_frame (fun _ => "S") (fun _ => "Q") (fun _ _ => "A")
      none (fun _ => Except.error ⟨"e"⟩) (fun _ => "T") (fun _ _ => "B")
      (fun _ => none) "s" "done" "hi" (by decide) (by decide)
  refine ⟨st1, r1, ha, ?_, ?_⟩
  · simpa [oldMem] using hb
  · simpa using hc "other" (by decide)
